import Mathlib

/-!
Verification of the Cardholder Capability Container (CCC) module
(`src/cccid.rs`) of the yubikey.rs repository, as a shallow embedding.

Bytes (`u8`) are embedded as `Nat` (all byte values in play are `< 256`;
no arithmetic is performed on them, they are only stored and moved).
Fixed-size arrays `[u8; N]` are embedded as subtype-carrying structures
over `List Nat` with a length invariant.

The device-driver collaborator (`YubiKey::begin_transaction`,
`Transaction::fetch_object`, `Transaction::save_object`) lives outside the
analysed sources; per the specification (§4.3, §6) it is an external
interface, so it is modelled as an oracle: a record of result-valued
fields. `get`/`set` are instrumented to also return the list of collaborator
operations they invoked, so temporal claims about invocation order can be
stated.
-/

namespace Cccid

/-- A byte (`u8`), embedded as `Nat`. -/
abbrev Byte := Nat

/-- Size of a CCC Card ID, `CCCID_SIZE` (14 bytes). -/
def CCCID_SIZE : Nat := 14

/-- Size of a CCC, `CCC_SIZE` (51 bytes). -/
def CCC_SIZE : Nat := 51

/-- Offset of the CardId inside a CCC, `CCC_ID_OFFS`. -/
def CCC_ID_OFFS : Nat := 9

/-- Object identifier of the CCC object slot, `OBJ_CAPABILITY`. -/
def OBJ_CAPABILITY : Nat := 0x005fc107

/-- The constant 51-byte CCC template, `CCC_TMPL`. -/
def CCC_TMPL : List Byte := [
  0xf0, 0x15, 0xa0, 0x00, 0x00, 0x01, 0x16, 0xff, 0x02, 0x00, 0x00, 0x00, 0x00, 0x00, 0x00, 0x00,
  0x00, 0x00, 0x00, 0x00, 0x00, 0x00, 0x00, 0xf1, 0x01, 0x21, 0xf2, 0x01, 0x21, 0xf3, 0x00, 0xf4,
  0x01, 0x00, 0xf5, 0x01, 0x10, 0xf6, 0x00, 0xf7, 0x00, 0xfa, 0x00, 0xfb, 0x00, 0xfc, 0x00, 0xfd,
  0x00, 0xfe, 0x00]

/-- Modelled from the spec: the repository's `Error` enum (`error.rs`) is not
among the analysed sources; only the variants this module produces are
included, plus a stand-in family for transport/protocol errors propagated
unmodified from the device-driver collaborator (§7). -/
inductive Error where
| genericError
| randomnessError
| transportError (code : Nat)
deriving DecidableEq

/-- Modelled from the spec: the error type of the external randomness
source (`getrandom`), opaque to this module (it is mapped to
`Error::RandomnessError` regardless of its value). -/
inductive GetrandomError where
| entropyUnavailable (code : Nat)
deriving DecidableEq

/-- A 14-byte identifier, `CardId` (`[u8; CCCID_SIZE]`). -/
structure CardId where
  bytes : List Byte
  size_eq : bytes.length = CCCID_SIZE

instance : DecidableEq CardId :=
  fun a b => decidable_of_iff (a.bytes = b.bytes) (by cases a; cases b; simp)

/-- A 51-byte Cardholder Capability Container, `CCC` (`[u8; CCC_SIZE]`). -/
structure CCC where
  bytes : List Byte
  size_eq : bytes.length = CCC_SIZE

instance : DecidableEq CCC :=
  fun a b => decidable_of_iff (a.bytes = b.bytes) (by cases a; cases b; simp)

/-- An invocation of a device-driver collaborator operation, recorded so
that temporal claims (which operations ran, in which order) can be stated. -/
inductive Op where
| beginTxn
| fetchObject (id : Nat)
| saveObject (id : Nat) (data : List Byte)
deriving DecidableEq

/-- Modelled from the spec (§4.3): an active transaction scope, as an oracle
giving the outcome of each object-store operation it can serve. -/
structure Transaction where
  fetchObject : Nat → Except Error (List Byte)
  saveObject : Nat → List Byte → Except Error Unit

/-- Modelled from the spec (§4.3, §6): a device handle, as an oracle giving
the outcome of `begin_transaction`. -/
structure YubiKey where
  beginTransaction : Except Error Transaction

/-- Slice assignment `dst[offs..offs + src.len()].copy_from_slice(&src)` on lists: the bytes
of `dst` from `offs` to `offs + src.length` are replaced by `src`. -/
def copyFromSlice (dst : List Byte) (offs : Nat) (src : List Byte) : List Byte :=
  dst.take offs ++ src ++ dst.drop (offs + src.length)

/-- Embedding of `CardId::generate`: fill a fresh `CCCID_SIZE`-byte buffer from the
randomness source; on failure of the single draw, `Error::RandomnessError`.
The source is the oracle `getrandom`, which fills a caller-sized buffer. -/
def CardId.generate
    (getrandom : (n : Nat) → Except GetrandomError { l : List Byte // l.length = n }) :
    Except Error CardId :=
  match getrandom CCCID_SIZE with
  | .error _ => .error .randomnessError
  | .ok id => .ok ⟨id.val, id.property⟩

/-- Helper: the slice `self.0[CCC_ID_OFFS..CCC_ID_OFFS + CCCID_SIZE]` of a
51-byte CCC has exactly `CCCID_SIZE` bytes. -/
theorem cccid_slice_length (c : CCC) :
    ((c.bytes.drop CCC_ID_OFFS).take CCCID_SIZE).length = CCCID_SIZE := by
  simp [List.length_take, List.length_drop, c.size_eq, CCCID_SIZE, CCC_ID_OFFS, CCC_SIZE]

/-- Embedding of `CCC::cccid`: the CardId component of a CCC, namely bytes
`CCC_ID_OFFS .. CCC_ID_OFFS + CCCID_SIZE`. Always returns `Ok`. -/
def CCC.cccid (c : CCC) : Except Error CardId :=
  Except.ok ⟨(c.bytes.drop CCC_ID_OFFS).take CCCID_SIZE, cccid_slice_length c⟩

/-- Helper: the template is 51 bytes long. -/
theorem CCC_TMPL_length : CCC_TMPL.length = CCC_SIZE := by decide

/-- Embedding of `CCC::get`: begin a transaction, fetch the CCC object, reject any
response whose length differs from the template's, otherwise copy the
first `CCC_SIZE` bytes verbatim into a new CCC. The second component is
the trace of collaborator operations invoked. -/
def CCC.get (yubikey : YubiKey) : Except Error CCC × List Op :=
  match yubikey.beginTransaction with
  | .error e => (.error e, [.beginTxn])
  | .ok txn =>
    match txn.fetchObject OBJ_CAPABILITY with
    | .error e => (.error e, [.beginTxn, .fetchObject OBJ_CAPABILITY])
    | .ok response =>
      if h : response.length = CCC_TMPL.length then
        (.ok ⟨response.take CCC_SIZE, by
          simp [List.length_take, h, CCC_TMPL_length]⟩,
         [.beginTxn, .fetchObject OBJ_CAPABILITY])
      else
        (.error .genericError, [.beginTxn, .fetchObject OBJ_CAPABILITY])

/-- The buffer `CCC::set` persists: a copy of `CCC_TMPL` whose first
`self.0.len()` bytes are overwritten with `self.0`
(`buf[0..self.0.len()].copy_from_slice(&self.0)`). -/
def CCC.setBuf (c : CCC) : List Byte :=
  copyFromSlice CCC_TMPL 0 c.bytes

/-- Embedding of `CCC::set`: build the buffer from the template and the caller's bytes,
begin a transaction, and save the buffer to `OBJ_CAPABILITY`. The second
component is the trace of collaborator operations invoked. -/
def CCC.set (c : CCC) (yubikey : YubiKey) : Except Error Unit × List Op :=
  let buf := CCC.setBuf c
  match yubikey.beginTransaction with
  | .error e => (.error e, [.beginTxn])
  | .ok txn => (txn.saveObject OBJ_CAPABILITY buf, [.beginTxn, .saveObject OBJ_CAPABILITY buf])

/-- The lowercase hexadecimal digit for a value below 16 (`Nat.digitChar`
maps 0..15 to the characters 0..9, a..f). -/
def hexChar (n : Nat) : Char := Nat.digitChar n

/-- Lowercase hexadecimal encoding of one byte: high nibble then low
nibble (for `b < 256`, `b / 16 % 16 = b / 16`, the `u8` high nibble). -/
def hexEncodeByte (b : Byte) : List Char :=
  [hexChar (b / 16 % 16), hexChar (b % 16)]

/-- Embedding of `impl Display for CCC`: the lowercase hex encoding of the 51 raw
bytes, with no separators (`hex::encode`). -/
def CCC.display (c : CCC) : String :=
  ⟨(c.bytes.map hexEncodeByte).flatten⟩

/-- The all-zero CCC. -/
def cccZero : CCC := ⟨List.replicate 51 0, by simp [CCC_SIZE]⟩

/-- A CCC whose first two bytes are `0xDE, 0xAD`. -/
def cccDead : CCC := ⟨0xde :: 0xad :: List.replicate 49 0, by simp [CCC_SIZE]⟩

/-- Modelled from the spec (§8 round-trip law): the CCC built by placing a
CardId into the constant template at the canonical offset `CCC_ID_OFFS`. -/
def embedCardId (id : CardId) : CCC :=
  ⟨copyFromSlice CCC_TMPL CCC_ID_OFFS id.bytes, by
    have h := id.size_eq
    simp [copyFromSlice, h, CCCID_SIZE, CCC_ID_OFFS, CCC_SIZE,
      List.length_take, List.length_drop, CCC_TMPL_length,
      show CCC_TMPL.length = 51 from by decide]⟩

/-- A concrete CardId: fourteen zero bytes. -/
def cardIdZero : CardId := ⟨List.replicate 14 0, by simp [CCCID_SIZE]⟩

/-- A concrete CardId: fourteen `0x41` bytes. -/
def cardIdOnes : CardId := ⟨List.replicate 14 0x41, by simp [CCCID_SIZE]⟩

/-- A concrete transaction oracle whose fetch returns the 51-byte template
and whose save succeeds. -/
def txnOk : Transaction :=
  ⟨fun _ => .ok CCC_TMPL, fun _ _ => .ok ()⟩

/-- A concrete device oracle on which `begin_transaction` succeeds with
`txnOk`. -/
def ykOk : YubiKey := ⟨.ok txnOk⟩

/-- A concrete transaction oracle whose fetch returns 50 bytes. -/
def txnShort : Transaction :=
  ⟨fun _ => .ok (List.replicate 50 0), fun _ _ => .ok ()⟩

/-- A concrete device oracle whose transaction fetches 50 bytes. -/
def ykShort : YubiKey := ⟨.ok txnShort⟩

/-- A concrete transaction oracle whose fetch returns 52 bytes. -/
def txnLong : Transaction :=
  ⟨fun _ => .ok (List.replicate 52 0), fun _ _ => .ok ()⟩

/-- A concrete device oracle whose transaction fetches 52 bytes. -/
def ykLong : YubiKey := ⟨.ok txnLong⟩

/-- A concrete device oracle on which `begin_transaction` fails with a
transport error. -/
def ykFail : YubiKey := ⟨.error (.transportError 7)⟩

/-- A concrete randomness oracle that always fills the buffer with zeros. -/
def fillOk : (n : Nat) → Except GetrandomError { l : List Byte // l.length = n } :=
  fun n => .ok ⟨List.replicate n 0, by simp⟩

/-- A concrete randomness oracle that always fails. -/
def fillErr : (n : Nat) → Except GetrandomError { l : List Byte // l.length = n } :=
  fun _ => .error (.entropyUnavailable 0)

/-- Helper: the buffer `set` builds is the caller's CCC bytes unchanged,
because the overwritten range `0 .. self.0.len()` is the whole 51-byte
buffer. -/
theorem setBuf_eq_bytes (c : CCC) : CCC.setBuf c = c.bytes := by
  have h := c.size_eq
  simp [CCC.setBuf, copyFromSlice, h, CCC_SIZE,
    show CCC_TMPL.length = 51 from by decide]

/-- Helper: a byte of `embedCardId id` outside the CardId field
`CCC_ID_OFFS .. CCC_ID_OFFS + CCCID_SIZE` is the template's byte. -/
theorem embedCardId_getElem_outside (a : CardId) (i : Nat)
    (h : i < CCC_ID_OFFS ∨ CCC_ID_OFFS + CCCID_SIZE ≤ i) :
    (embedCardId a).bytes[i]? = CCC_TMPL[i]? := by
  obtain ⟨b, hb⟩ := a
  have hb14 : b.length = 14 := hb
  have htake : (CCC_TMPL.take CCC_ID_OFFS).length = 9 := by decide
  have hoffs : CCC_ID_OFFS = 9 := by decide
  have hsz : CCCID_SIZE = 14 := by decide
  simp only [embedCardId, copyFromSlice, List.append_assoc]
  rcases h with h | h
  · rw [List.getElem?_append, if_pos (by omega)]
    rw [List.getElem?_take, if_pos (by omega)]
  · rw [List.getElem?_append_right (by omega),
      List.getElem?_append_right (by omega), List.getElem?_drop]
    congr 1
    omega

/-- Helper: the flattened hex encoding of a byte list has two characters
per byte. -/
theorem hex_flatten_length (l : List Byte) :
    ((l.map hexEncodeByte).flatten).length = 2 * l.length := by
  induction l with
  | nil => simp
  | cons x xs ih => simp [hexEncodeByte, ih]; omega

/-- C1 counterexample: `set` does not leave the template bytes past the
first 14 intact. On the all-zero CCC, the buffer `set` saves is the 51
zero bytes, which differs (e.g. at offset 23, where the template holds
`0xf1`) from the claimed first-14-bytes-overwritten template. -/
theorem set_not_cardid_sized_overwrite :
    (CCC.set cccZero ykOk).2 = [Op.beginTxn, Op.saveObject OBJ_CAPABILITY (CCC.setBuf cccZero)]
    ∧ ¬ (CCC.setBuf cccZero
          = cccZero.bytes.take CCCID_SIZE ++ CCC_TMPL.drop CCCID_SIZE) := by
  exact ⟨rfl, by decide⟩

/-- C1 (amended): `set` copies the 51-byte template and overwrites its
first `self.0.len()` = 51 bytes — the whole buffer — with the caller's
CCC bytes, then begins a transaction and saves exactly the caller's 51
bytes to object identifier `OBJ_CAPABILITY` (0x005FC107). -/
theorem set_saves_callers_bytes (c : CCC) (yubikey : YubiKey) (txn : Transaction)
    (h : yubikey.beginTransaction = .ok txn) :
    CCC.set c yubikey = (txn.saveObject OBJ_CAPABILITY c.bytes,
      [Op.beginTxn, Op.saveObject OBJ_CAPABILITY c.bytes]) := by
  simp [CCC.set, h, setBuf_eq_bytes]

/-- Witness for C1 (amended) at the all-zero CCC and the concrete
succeeding device oracle. -/
theorem set_saves_callers_bytes_witness :
    CCC.set cccZero ykOk = (txnOk.saveObject OBJ_CAPABILITY cccZero.bytes,
      [Op.beginTxn, Op.saveObject OBJ_CAPABILITY cccZero.bytes]) :=
  set_saves_callers_bytes cccZero ykOk txnOk rfl

/-- C2: embedding any 14-byte CardId into the constant template at the
canonical offset 9 and extracting via `cccid()` returns exactly that
CardId (round-trip law). -/
theorem embed_cccid_roundtrip (id : CardId) :
    CCC.cccid (embedCardId id) = Except.ok id := by
  obtain ⟨b, hb⟩ := id
  have hlen : (CCC_TMPL.take CCC_ID_OFFS).length = CCC_ID_OFFS := by decide
  simp only [CCC.cccid, embedCardId, copyFromSlice, Except.ok.injEq, CardId.mk.injEq]
  rw [List.append_assoc, List.drop_left' hlen, List.take_left' hb]

/-- C3: whenever the fetched byte sequence for object 0x005FC107 has
length different from 51 — shorter or longer — `get` fails with
`GenericError`, and no CCC value is returned. -/
theorem get_rejects_wrong_length (yubikey : YubiKey) (txn : Transaction)
    (response : List Byte)
    (h1 : yubikey.beginTransaction = .ok txn)
    (h2 : txn.fetchObject OBJ_CAPABILITY = .ok response)
    (h3 : response.length ≠ CCC_SIZE) :
    (CCC.get yubikey).1 = .error .genericError := by
  simp [CCC.get, h1, h2]
  rw [dif_neg (fun hc => h3 (hc.trans CCC_TMPL_length))]

/-- Witness for C3: a 50-byte response and a 52-byte response are both
rejected with `GenericError`. -/
theorem get_rejects_wrong_length_witness :
    (CCC.get ykShort).1 = .error .genericError
    ∧ (CCC.get ykLong).1 = .error .genericError :=
  ⟨get_rejects_wrong_length ykShort txnShort (List.replicate 50 0) rfl rfl (by decide),
   get_rejects_wrong_length ykLong txnLong (List.replicate 52 0) rfl rfl (by decide)⟩

/-- C4: when the fetched response has length exactly 51, `get` succeeds
and the returned CCC's bytes equal the response bytes verbatim. -/
theorem get_copies_response_verbatim (yubikey : YubiKey) (txn : Transaction)
    (response : List Byte)
    (h1 : yubikey.beginTransaction = .ok txn)
    (h2 : txn.fetchObject OBJ_CAPABILITY = .ok response)
    (h3 : response.length = CCC_SIZE) :
    ∃ c : CCC, (CCC.get yubikey).1 = .ok c ∧ c.bytes = response := by
  have hc : response.length = CCC_TMPL.length := by rw [h3, CCC_TMPL_length]
  refine ⟨⟨response.take CCC_SIZE, by simp [List.length_take, hc, CCC_TMPL_length]⟩, ?_, ?_⟩
  · simp [CCC.get, h1, h2]
    rw [dif_pos hc]
  · exact List.take_of_length_le (le_of_eq h3)

/-- Witness for C4: fetching the 51-byte template yields a CCC whose bytes
are the template. -/
theorem get_copies_response_verbatim_witness :
    ∃ c : CCC, (CCC.get ykOk).1 = .ok c ∧ c.bytes = CCC_TMPL :=
  get_copies_response_verbatim ykOk txnOk CCC_TMPL rfl rfl (by decide)

/-- C5: `cccid()` is total — it always returns `Ok` — and the returned
CardId's byte at each index `i < 14` is the CCC's byte at offset `9 + i`
(offsets 9 through 22 inclusive). -/
theorem cccid_total_extracts_offset_nine (c : CCC) (i : Nat) (hi : i < CCCID_SIZE) :
    ∃ id : CardId, CCC.cccid c = Except.ok id
      ∧ id.bytes[i]? = c.bytes[CCC_ID_OFFS + i]? := by
  refine ⟨_, rfl, ?_⟩
  simp [CCC.cccid, List.getElem?_take, List.getElem?_drop, hi]

/-- Witness for C5 at the `0xDE, 0xAD` CCC and index 0. -/
theorem cccid_total_extracts_offset_nine_witness :
    ∃ id : CardId, CCC.cccid cccDead = Except.ok id
      ∧ id.bytes[0]? = cccDead.bytes[CCC_ID_OFFS + 0]? :=
  cccid_total_extracts_offset_nine cccDead 0 (by decide)

/-- C6: embedding a CardId into the template changes no byte outside
offsets 9..23: at every such index the embedded CCC agrees with the
constant template, and hence any two CCCs built from different CardIds
agree with each other there. -/
theorem embed_frame_outside_id_field (a b : CardId) (i : Nat)
    (h : i < CCC_ID_OFFS ∨ CCC_ID_OFFS + CCCID_SIZE ≤ i) :
    (embedCardId a).bytes[i]? = CCC_TMPL[i]?
    ∧ (embedCardId a).bytes[i]? = (embedCardId b).bytes[i]? :=
  ⟨embedCardId_getElem_outside a i h,
   (embedCardId_getElem_outside a i h).trans (embedCardId_getElem_outside b i h).symm⟩

/-- Witness for C6 at two concrete CardIds and index 23 (the first fixed
byte after the CardId field). -/
theorem embed_frame_outside_id_field_witness :
    (embedCardId cardIdZero).bytes[23]? = CCC_TMPL[23]?
    ∧ (embedCardId cardIdZero).bytes[23]? = (embedCardId cardIdOnes).bytes[23]? :=
  embed_frame_outside_id_field cardIdZero cardIdOnes 23 (by decide)

/-- C7: `generate` draws one 14-byte buffer from the randomness source.
If the draw succeeds the 14 drawn bytes are returned as the CardId; if the
single draw fails the call fails terminally with `RandomnessError`. -/
theorem generate_single_draw (f g : (n : Nat) → Except GetrandomError { l : List Byte // l.length = n })
    (r : { l : List Byte // l.length = CCCID_SIZE }) (e : GetrandomError)
    (hf : f CCCID_SIZE = .ok r) (hg : g CCCID_SIZE = .error e) :
    CardId.generate f = .ok ⟨r.val, r.property⟩
    ∧ CardId.generate g = .error .randomnessError := by
  constructor <;> simp [CardId.generate, hf, hg]

/-- Witness for C7 at the concrete succeeding and failing randomness
oracles. -/
theorem generate_single_draw_witness :
    CardId.generate fillOk = .ok ⟨List.replicate CCCID_SIZE 0, by simp⟩
    ∧ CardId.generate fillErr = .error .randomnessError :=
  generate_single_draw fillOk fillErr ⟨List.replicate CCCID_SIZE 0, by simp⟩
    (.entropyUnavailable 0) rfl rfl

/-- C8: the diagnostic rendering of a CCC is the lowercase hex encoding of
its 51 bytes with no separators, 102 characters in all; the all-zero CCC
renders as 102 `0` characters, and a CCC starting `0xDE, 0xAD` renders
with leading characters `dead`. -/
theorem display_lowercase_hex :
    (∀ c : CCC, (CCC.display c).length = 102)
    ∧ CCC.display cccZero = ⟨List.replicate 102 '0'⟩
    ∧ (CCC.display cccDead).data.take 4 = ['d', 'e', 'a', 'd'] := by
  refine ⟨fun c => ?_, by decide, by decide⟩
  have h := c.size_eq
  have h2 : (CCC.display c).length = ((c.bytes.map hexEncodeByte).flatten).length := rfl
  rw [h2, hex_flatten_length, h]
  decide

/-- C9: if `begin_transaction` fails, both `get` and `set` return that
error unchanged and invoke no object-store operation: the operation trace
is the failed begin alone, with no fetch and no save. -/
theorem begin_failure_blocks_object_ops (c : CCC) (yubikey : YubiKey) (e : Error)
    (h : yubikey.beginTransaction = .error e) :
    CCC.get yubikey = (.error e, [Op.beginTxn])
    ∧ CCC.set c yubikey = (.error e, [Op.beginTxn]) := by
  constructor <;> simp [CCC.get, CCC.set, h]

/-- Witness for C9 at the concrete failing device oracle. -/
theorem begin_failure_blocks_object_ops_witness :
    CCC.get ykFail = (.error (.transportError 7), [Op.beginTxn])
    ∧ CCC.set cccZero ykFail = (.error (.transportError 7), [Op.beginTxn]) :=
  begin_failure_blocks_object_ops cccZero ykFail (.transportError 7) rfl

/-- C10: because `set` receives a full 51-byte CCC, the copy over the
template's leading `self.0.len()` bytes covers all 51 bytes: the buffer
`set` builds and persists equals the caller's CCC bytes exactly, still 51
bytes long, and no template byte survives into it. -/
theorem setbuf_is_callers_ccc (c : CCC) :
    CCC.setBuf c = c.bytes ∧ (CCC.setBuf c).length = CCC_SIZE :=
  ⟨setBuf_eq_bytes c, (setBuf_eq_bytes c) ▸ c.size_eq⟩

end Cccid
